import Mathlib

/-!
Shallow embedding of the core of the `flow-service` workflow orchestration
service (Go), covering the state manager, the edge condition evaluator, the
workflow/execution services, the execution engine's timeout derivation, the
scheduler's next-run computation and the workflow statistics update.

Conventions used throughout:
* Go `time.Time` values are modelled as `Int` nanoseconds since the Go zero
  time (`time.Time{}`), so the zero time is `0` and every representable Go
  time is nonnegative; `Before`/`After` become `<`/`>` on `Int`.
* Go `time.Duration` is `Int` nanoseconds.
* Go string-typed status enums are modelled by inductive types listing the
  declared constants.
* Go functions returning `(T, error)` or `error` are modelled with `Except`.
* Go `nil` pointers/maps/slices are modelled with `Option`.
-/

namespace FlowService

/-- Workflow statuses (`models.WorkflowStatus` constants). -/
inductive WorkflowStatus where
  | inactive
  | active
  | paused
  | disabled
deriving DecidableEq, Repr, Fintype

/-- Execution statuses (`models.ExecutionStatus` constants). -/
inductive ExecStatus where
  | pending
  | running
  | completed
  | failed
  | cancelled
  | timeout
  | archived
deriving DecidableEq, Repr, Fintype

/-- Error kinds produced by the state manager's transition validation:
`invalidFromStatus` for `"invalid from status: %s"` and
`invalidTransition` for `"invalid ... state transition from %s to %s"`. -/
inductive TransErr where
  | invalidFromStatus
  | invalidTransition
deriving DecidableEq, Repr

/-- The workflow transition table built by
`StateManager.initializeTransitionRules` (`state_manager.go`): map from a
from-status to the list of allowed to-statuses; `none` models a key that is
absent from the Go map. -/
def workflowTransitions : WorkflowStatus → Option (List WorkflowStatus)
  | .inactive => some [.active, .disabled]
  | .active => some [.inactive, .paused, .disabled]
  | .paused => some [.active, .inactive, .disabled]
  | .disabled => some [.inactive]

/-- The execution transition table built by
`StateManager.initializeTransitionRules`: `timeout` and `archived` are not
keys of the Go map. -/
def executionTransitions : ExecStatus → Option (List ExecStatus)
  | .pending => some [.running, .cancelled]
  | .running => some [.completed, .failed, .cancelled]
  | .failed => some [.pending]
  | .completed => some []
  | .cancelled => some []
  | .timeout => none
  | .archived => none

/-- `StateManager.ValidateWorkflowTransition` (`state_manager.go:95`). -/
def validateWorkflowTransition (src tgt : WorkflowStatus) : Except TransErr Unit :=
  match workflowTransitions src with
  | none => .error .invalidFromStatus
  | some allowed => if tgt ∈ allowed then .ok () else .error .invalidTransition

/-- `StateManager.ValidateExecutionTransition` (`state_manager.go:114`). -/
def validateExecutionTransition (src tgt : ExecStatus) : Except TransErr Unit :=
  match executionTransitions src with
  | none => .error .invalidFromStatus
  | some allowed => if tgt ∈ allowed then .ok () else .error .invalidTransition

/-- Dynamically-typed Go values carried in a `map[string]interface{}`
variables snapshot, restricted to the shapes the condition evaluator
distinguishes. A `float64` is represented by the `Int` that Go's `int(f)`
conversion (truncation toward zero) yields for it, since truncation is the
only operation the evaluator performs on floats. -/
inductive GoVal where
  | vint (i : Int)
  | vfloat (trunc : Int)
  | vstr (s : String)
  | vbool (b : Bool)
deriving DecidableEq, Repr

/-- The numeric conversion attempted by `evaluateSimpleCondition`
(`edge.go:403-410`): a Go type assertion to `int`, then to `float64` with
truncation; any other dynamic type fails. -/
def GoVal.asContextNum : GoVal → Option Int
  | .vint i => some i
  | .vfloat t => some t
  | _ => none

/-- Lookup in a Go map modelled as an association list. -/
def lookupCtx (ctx : List (String × GoVal)) (k : String) : Option GoVal :=
  ctx.lookup k

/-- Splitting a character list at whitespace characters, accumulating the
current chunk in reverse. -/
def splitAtWhitespace : List Char → List Char → List (List Char)
  | [], acc => [acc.reverse]
  | c :: cs, acc =>
    if c.isWhitespace then acc.reverse :: splitAtWhitespace cs []
    else splitAtWhitespace cs (c :: acc)

/-- Go `strings.Fields`: split around runs of whitespace, dropping empty
chunks. -/
def goFields (s : String) : List String :=
  ((splitAtWhitespace s.data []).filter fun cs => ¬ cs.isEmpty).map
    fun cs => String.mk cs

/-- Decimal digits prefix value: `none` when the list does not start with a
digit, otherwise the value of the longest digit prefix (trailing non-digit
characters are ignored, as `fmt.Sscanf` with `%d` ignores unconsumed
input). -/
def digitsPrefix (cs : List Char) : Option Nat :=
  let ds := cs.takeWhile Char.isDigit
  if ds.isEmpty then none
  else some (ds.foldl (fun a c => a * 10 + (c.toNat - 48)) 0)

/-- Go `fmt.Sscanf(s, "%d", &n)`: optional sign followed by decimal
digits; fails when no digit follows the optional sign. -/
def sscanfInt (s : String) : Option Int :=
  match s.data with
  | '+' :: rest => (digitsPrefix rest).map Int.ofNat
  | '-' :: rest => (digitsPrefix rest).map fun n => -(n : Int)
  | cs => (digitsPrefix cs).map Int.ofNat

/-- Edge types (`models.EdgeTypeEnum` constants). -/
inductive EdgeTypeEnum where
  | normal
  | conditional
  | loop
  | error
  | timeout
  | skip
deriving DecidableEq, Repr

/-- Edge statuses (`models.EdgeStatusEnum` constants). -/
inductive EdgeStatusEnum where
  | active
  | inactive
  | disabled
deriving DecidableEq, Repr

/-- `models.EdgeCondition` (`edge.go:91`), restricted to the fields read by
the evaluator (`Parameters` and `Timeout` are never read). -/
structure EdgeCondition where
  expression : String
  condType : String
  defaultValue : Bool
  enabled : Bool
deriving DecidableEq, Repr

/-- `models.EdgeConfig` (`edge.go:160`), restricted to the fields read by
the modelled operations (condition evaluation, enablement, weight,
priority, delay). -/
structure EdgeConfig where
  condition : Option EdgeCondition
  weight : Int
  priority : Int
  delay : Int
  enabled : Bool
deriving DecidableEq, Repr

/-- `models.Edge` (`edge.go:235`), without the execution statistics and UI
fields that no modelled operation reads. -/
structure Edge where
  id : String
  name : String
  description : String
  fromNodeId : String
  toNodeId : String
  edgeType : EdgeTypeEnum
  status : EdgeStatusEnum
  config : Option EdgeConfig
deriving DecidableEq, Repr

/-- `Edge.IsConditional` (`edge.go:311`). -/
def Edge.isConditional (e : Edge) : Bool :=
  e.edgeType = .conditional

/-- `Edge.IsEnabled` (`edge.go:316`). -/
def Edge.isEnabled (e : Edge) : Bool :=
  if e.status = .disabled then false
  else match e.config with
    | some cfg => cfg.enabled
    | none => true

/-- `Edge.evaluateSimpleCondition` (`edge.go:378`): literal
`true`/`false`, otherwise the 3-token `field OP value` form compared over
integers. -/
def evaluateSimpleCondition (expr : String) (ctx : List (String × GoVal)) :
    Except String Bool :=
  if expr = "true" then .ok true
  else if expr = "false" then .ok false
  else
    match goFields expr with
    | [field, op, valueStr] =>
      match lookupCtx ctx field with
      | none => .ok false
      | some contextValue =>
        match contextValue.asContextNum with
        | none => .error "cannot compare non-numeric value"
        | some contextNum =>
          match sscanfInt valueStr with
          | none => .error ("invalid target value: " ++ valueStr)
          | some targetNum =>
            match op with
            | ">" => .ok (decide (contextNum > targetNum))
            | ">=" => .ok (decide (contextNum ≥ targetNum))
            | "<" => .ok (decide (contextNum < targetNum))
            | "<=" => .ok (decide (contextNum ≤ targetNum))
            | "==" => .ok (decide (contextNum = targetNum))
            | "=" => .ok (decide (contextNum = targetNum))
            | "!=" => .ok (decide (contextNum ≠ targetNum))
            | _ => .error ("unsupported operator: " ++ op)
    | _ => .error ("invalid expression format: " ++ expr)

/-- `Edge.EvaluateCondition` (`edge.go:353`). -/
def Edge.evaluateCondition (e : Edge) (ctx : List (String × GoVal)) :
    Except String Bool :=
  if ¬ e.isConditional then .ok true
  else
    match e.config with
    | none => .error "conditional edge missing condition config"
    | some cfg =>
      match cfg.condition with
      | none => .error "conditional edge missing condition config"
      | some cond =>
        if ¬ cond.enabled then .ok cond.defaultValue
        else if cond.condType = "simple" then
          evaluateSimpleCondition cond.expression ctx
        else .ok cond.defaultValue

/-- The integer comparison selected by an operator token, as the spec
describes it (`OP` ranges over the seven comparison tokens). -/
def specCompare (op : String) (a b : Int) : Option Bool :=
  if op = ">" then some (decide (a > b))
  else if op = ">=" then some (decide (a ≥ b))
  else if op = "<" then some (decide (a < b))
  else if op = "<=" then some (decide (a ≤ b))
  else if op = "==" ∨ op = "=" then some (decide (a = b))
  else if op = "!=" then some (decide (a ≠ b))
  else none

/-- `models.TimeoutConfig` (`node.go`), durations in nanoseconds. -/
structure TimeoutConfig where
  executionTimeout : Int
  connectionTimeout : Int
  readTimeout : Int
  writeTimeout : Int
deriving DecidableEq, Repr

/-- `models.NodeRetryConfig` (`node.go`), restricted to the fields read by
the modelled operations. -/
structure NodeRetryConfig where
  maxRetries : Int
  retryInterval : Int
  backoffStrategy : String
deriving DecidableEq, Repr

/-- `models.NodeConfig` (`node.go:146`), restricted to the sub-configs read
by the modelled operations (the plugin/input/output/resource/condition/
loop configs are opaque payloads the engine hands to plugins). -/
structure NodeConfig where
  retryConfig : Option NodeRetryConfig
  timeoutConfig : Option TimeoutConfig
deriving DecidableEq, Repr

/-- `models.Node` (`node.go:341`), restricted to the fields read by the
modelled operations. -/
structure Node where
  id : String
  name : String
  description : String
  nodeType : String
  plugin : String
  status : String
  retryCount : Int
  dependencies : List String
  config : Option NodeConfig
deriving DecidableEq, Repr

/-- Five minutes in nanoseconds, the default of `Node.GetExecutionTimeout`. -/
def fiveMinutesNs : Int := 300 * 1000000000

/-- Thirty seconds in nanoseconds, the engine's fallback in `executeNode`. -/
def thirtySecondsNs : Int := 30 * 1000000000

/-- `Node.GetExecutionTimeout` (`node.go:444`). -/
def Node.getExecutionTimeout (n : Node) : Int :=
  match n.config with
  | none => fiveMinutesNs
  | some cfg =>
    match cfg.timeoutConfig with
    | none => fiveMinutesNs
    | some tc =>
      if tc.executionTimeout > 0 then tc.executionTimeout else fiveMinutesNs

/-- The timeout the engine applies around the plugin call in
`WorkflowEngine.executeNode` (`workflow_engine.go:386-393`): the node's
execution timeout, with a 30-second fallback when it is zero. -/
def engineNodeTimeout (n : Node) : Int :=
  let timeout := n.getExecutionTimeout
  if timeout = 0 then thirtySecondsNs else timeout

/-- The timeout formula asserted by the specification:
`min(node timeout, workflow task timeout, 30s)`. -/
def specMinTimeout (nodeTimeout wfTaskTimeout : Int) : Int :=
  min (min nodeTimeout wfTaskTimeout) thirtySecondsNs

/-- A concrete node with no configuration at all. -/
def noConfigNode : Node :=
  { id := "n1", name := "n1", description := "", nodeType := "transform",
    plugin := "data_transform", status := "pending", retryCount := 0,
    dependencies := [], config := none }

/-- The workflow transition pairs listed by the specification. -/
def specWorkflowTable : List (WorkflowStatus × WorkflowStatus) :=
  [(.inactive, .active), (.inactive, .disabled),
   (.active, .inactive), (.active, .paused), (.active, .disabled),
   (.paused, .active), (.paused, .inactive), (.paused, .disabled),
   (.disabled, .inactive)]

/-- The execution transition pairs listed by the specification. -/
def specExecutionTable : List (ExecStatus × ExecStatus) :=
  [(.pending, .running), (.pending, .cancelled),
   (.running, .completed), (.running, .failed), (.running, .cancelled),
   (.failed, .pending)]

/-- Schedule types (`models.ScheduleType` constants). -/
inductive ScheduleType where
  | cron
  | interval
  | once
  | manual
deriving DecidableEq, Repr

/-- `models.WorkflowSchedule` (`workflow.go:598`). -/
structure WorkflowSchedule where
  scheduleType : ScheduleType
  cronExpression : String
  timezone : String
  interval : Int
  executeAt : Option Int
  enabled : Bool
  startTime : Option Int
  endTime : Option Int
  maxInstances : Int
  missedRunPolicy : String
deriving DecidableEq, Repr

/-- `models.NotificationConfig` (`workflow.go:641`). -/
structure NotificationConfig where
  onSuccess : Bool
  onFailure : Bool
  onRetry : Bool
  channels : List String
deriving DecidableEq, Repr

/-- `models.WorkflowConfig` (`workflow.go:623`); the untyped `Variables`
map is omitted since no modelled operation reads it. -/
structure WorkflowConfig where
  timeout : Int
  maxRetries : Int
  maxConcurrency : Int
  notifications : Option NotificationConfig
  priority : Int
  description : String
deriving DecidableEq, Repr

/-- `models.WorkflowStatistics` (`workflow.go:649`). The Go `SuccessRate`
is a `float64`; it is modelled with exact rational division, which the
claims under verification never inspect. -/
structure WorkflowStatistics where
  totalExecutions : Int
  successfulRuns : Int
  failedRuns : Int
  successRate : ℚ
  averageExecTime : Int
  lastExecutionTime : Option Int
  nextExecutionTime : Option Int
deriving DecidableEq, Repr

/-- The zero-valued statistics record (`&WorkflowStatistics{}`). -/
def emptyStatistics : WorkflowStatistics :=
  { totalExecutions := 0, successfulRuns := 0, failedRuns := 0,
    successRate := 0, averageExecTime := 0, lastExecutionTime := none,
    nextExecutionTime := none }

/-- `models.Workflow` (`workflow.go:660`): the deserialized in-memory
fields; the JSON text-column mirrors and the gorm bookkeeping columns are
not modelled. The Go nodes map is an association list from node id to
node. -/
structure Workflow where
  id : String
  name : String
  workflowType : String
  description : String
  version : String
  nodes : Option (List (String × Node))
  edges : Option (List Edge)
  schedule : Option WorkflowSchedule
  config : Option WorkflowConfig
  status : WorkflowStatus
  statistics : Option WorkflowStatistics
  tagsList : Option (List String)
  priority : Int
  createdBy : String
  updatedBy : String
  createdAt : Int
  updatedAt : Int
deriving DecidableEq, Repr

/-- `WorkflowStatus.IsValid` (`workflow.go:578`): every declared constant
is valid. -/
def WorkflowStatus.isValid (_ : WorkflowStatus) : Bool := true

/-- `Workflow.Validate` (`workflow.go:847`): only the name and the status
are checked. -/
def Workflow.validate (w : Workflow) : Except String Unit :=
  if w.name = "" then .error "workflow name is required"
  else if ¬ w.status.isValid then .error "invalid workflow status"
  else .ok ()

/-- `Workflow.ValidateForUpdate` (`workflow.go:860`). -/
def Workflow.validateForUpdate (w : Workflow) : Except String Unit :=
  if w.name = "" then .error "workflow name is required"
  else if w.version = "" then .error "workflow version is required"
  else if ¬ w.status.isValid then .error "invalid workflow status"
  else .ok ()

/-- The pure state change performed by `WorkflowService.ActivateWorkflow`
(`workflow_service.go:238`): validate the status transition with the state
manager, then set the status to active and refresh the update time.
Persistence, transition logging and the (stubbed) scheduler binding carry
no further decision logic. -/
def activateWorkflow (w : Workflow) (now : Int) : Except TransErr Workflow :=
  match validateWorkflowTransition w.status .active with
  | .error e => .error e
  | .ok _ => .ok { w with status := .active, updatedAt := now }

/-- The `(from, to)` pairs of the enabled edges of a workflow. -/
def enabledEdgePairs (w : Workflow) : List (String × String) :=
  (w.edges.getD []).filterMap fun e =>
    if e.isEnabled then some (e.fromNodeId, e.toNodeId) else none

/-- The immediate successors of a node in an edge pair list. -/
def succsOf (es : List (String × String)) (a : String) : List String :=
  es.filterMap fun p => if p.1 = a then some p.2 else none

/-- One expansion step of reachability along edge pairs. -/
def reachStep (es : List (String × String)) (xs : List String) : List String :=
  xs ++ es.filterMap fun p => if p.1 ∈ xs then some p.2 else none

/-- Iterated reachability expansion. -/
def reachIter (es : List (String × String)) : Nat → List String → List String
  | 0, xs => xs
  | n + 1, xs => reachIter es n (reachStep es xs)

/-- Whether some node of the workflow lies on a directed cycle of enabled
edges: it is reachable from one of its own successors within as many
expansion steps as there are nodes. This is the specification's notion of
a cyclic enabled-edge subgraph. -/
def existsEnabledCycle (w : Workflow) : Bool :=
  let es := enabledEdgePairs w
  let ids := (w.nodes.getD []).map Prod.fst
  ids.any fun a => (reachIter es ids.length (succsOf es a)).contains a

/-- The field-by-field merge of `WorkflowService.UpdateWorkflow`
(`workflow_service.go:112-138`): zero-valued request fields keep the
stored value. -/
def mergeUpdate (existing request : Workflow) : Workflow :=
  { existing with
    name := if request.name ≠ "" then request.name else existing.name,
    description :=
      if request.description ≠ "" then request.description
      else existing.description,
    version := if request.version ≠ "" then request.version else existing.version,
    nodes := match request.nodes with
      | some ns => some ns
      | none => existing.nodes,
    edges := match request.edges with
      | some es => some es
      | none => existing.edges,
    schedule := match request.schedule with
      | some s => some s
      | none => existing.schedule,
    config := match request.config with
      | some c => some c
      | none => existing.config,
    tagsList := match request.tagsList with
      | some t => some t
      | none => existing.tagsList,
    priority := if request.priority ≠ 0 then request.priority else existing.priority }

/-- `WorkflowService.UpdateWorkflow` (`workflow_service.go:104`): merge
the request into the stored workflow, validate the merged result for
update, and refresh the update time. -/
def updateWorkflowService (existing request : Workflow) (now : Int) :
    Except String Workflow :=
  let merged := mergeUpdate existing request
  match merged.validateForUpdate with
  | .error e => .error e
  | .ok _ => .ok { merged with updatedAt := now }

/-- `Workflow.UpdateStatistics` (`workflow.go:888`) on the statistics
record (`nil` statistics start from the zero record): increment the
counters, recompute the success rate, and roll the average execution time
with the moving mean over Go `int64` division (truncation toward zero). -/
def updateStatisticsCore (stats : Option WorkflowStatistics) (execTime : Int)
    (success : Bool) (now : Int) : WorkflowStatistics :=
  let st0 := stats.getD emptyStatistics
  let st1 : WorkflowStatistics := { st0 with
    totalExecutions := st0.totalExecutions + 1,
    successfulRuns :=
      if success then st0.successfulRuns + 1 else st0.successfulRuns,
    failedRuns := if success then st0.failedRuns else st0.failedRuns + 1 }
  let st2 : WorkflowStatistics :=
    if st1.totalExecutions > 0 then
      { st1 with successRate :=
          (st1.successfulRuns : ℚ) / (st1.totalExecutions : ℚ) }
    else st1
  let st3 : WorkflowStatistics :=
    if st2.totalExecutions = 1 then { st2 with averageExecTime := execTime }
    else { st2 with averageExecTime := Int.tdiv (st2.averageExecTime * (st2.totalExecutions - 1) + execTime) st2.totalExecutions }
  { st3 with lastExecutionTime := some now }

/-- `Workflow.UpdateStatistics` lifted to the workflow. -/
def Workflow.updateStatistics (w : Workflow) (execTime : Int) (success : Bool)
    (now : Int) : Workflow :=
  { w with statistics := some (updateStatisticsCore w.statistics execTime success now) }

/-- `models.Execution` (`execution.go:104`): the in-memory fields touched
by the modelled operations; JSON mirror columns, the nested
context/nodes/metrics payloads and gorm bookkeeping are not modelled. -/
structure Execution where
  id : String
  workflowId : String
  workflowVer : String
  name : String
  description : String
  status : ExecStatus
  triggerType : String
  triggerBy : String
  scheduledAt : Option Int
  startedAt : Option Int
  completedAt : Option Int
  retryCount : Int
  maxRetries : Int
  retryStrategy : String
  errorMsg : String
  errorCode : String
  stackTrace : String
  priority : Int
  tags : Option (List String)
  createdAt : Int
  updatedAt : Int
deriving DecidableEq, Repr

/-- `ExecutionStatus.IsFinished` (`execution.go:47`). -/
def ExecStatus.isFinished : ExecStatus → Bool
  | .completed => true
  | .failed => true
  | .cancelled => true
  | .timeout => true
  | _ => false

/-- `Execution.IsFinished` (`execution.go:324`). -/
def Execution.isFinished (e : Execution) : Bool :=
  e.status.isFinished

/-- `Execution.CanRetry` (`execution.go:334`). -/
def Execution.canRetry (e : Execution) : Bool :=
  decide (e.status = .failed) && decide (e.retryCount < e.maxRetries)

/-- `Execution.Retry` (`execution.go:408`). -/
def Execution.retry (e : Execution) : Except String Execution :=
  if ¬ e.canRetry then .error "execution cannot be retried"
  else .ok { e with
    retryCount := e.retryCount + 1, status := .pending,
    startedAt := none, completedAt := none, errorMsg := "", errorCode := "",
    stackTrace := "" }

/-- `Execution.Cancel` (`execution.go:395`). -/
def Execution.cancel (e : Execution) (now : Int) : Except String Execution :=
  if e.isFinished then .error "execution is already finished"
  else .ok { e with status := .cancelled, completedAt := some now }

/-- Error kinds of `ExecutionService.CancelExecution`: the not-found
lookup failure, a state-manager rejection, and the (unreachable)
already-finished rejection of `Execution.Cancel`. -/
inductive CancelErr where
  | notFound
  | stateErr (e : TransErr)
  | alreadyFinished
deriving DecidableEq, Repr

/-- The pure state change performed by `ExecutionService.CancelExecution`
(`execution_service.go:286`) on the looked-up execution (`none` models an
id the store does not know): validate the transition to cancelled with the
state manager, then cancel the record. Transition logging, the engine
context-cancel notification and persistence carry no further decision
logic. -/
def cancelExecutionService (lookup : Option Execution) (now : Int) :
    Except CancelErr Execution :=
  match lookup with
  | none => .error .notFound
  | some ex =>
    match validateExecutionTransition ex.status .cancelled with
    | .error e => .error (.stateErr e)
    | .ok _ =>
      match ex.cancel now with
      | .error _ => .error .alreadyFinished
      | .ok ex2 => .ok ex2

/-- `ScheduledTask` (`simple_scheduler.go:45`). -/
structure ScheduledTask where
  id : String
  workflowId : String
  name : String
  schedule : Option WorkflowSchedule
  nextRun : Int
  lastRun : Option Int
  runCount : Int
  enabled : Bool
deriving DecidableEq, Repr

/-- One hour in nanoseconds, the placeholder cron advance. -/
def oneHourNs : Int := 3600 * 1000000000

/-- The schedule-type switch of `SimpleScheduler.calculateNextRun`
(`simple_scheduler.go:243-272`), producing the raw next-run time. -/
def switchNextRun (sch : WorkflowSchedule) (now : Int) : Except String Int :=
  match sch.scheduleType with
  | .cron =>
    if sch.cronExpression = "" then .error "cron expression is empty"
    else .ok (now + oneHourNs)
  | .interval =>
    if sch.interval ≤ 0 then .error "interval must be positive"
    else .ok (now + sch.interval)
  | .once =>
    match sch.executeAt with
    | none => .error "execute_at is required for once schedule"
    | some t => .ok t
  | .manual => .ok 0

/-- The time-window check of `SimpleScheduler.calculateNextRun`
(`simple_scheduler.go:275-286`): clamp the raw next-run up to the start
time, and disable the task (leaving its old next-run in place) when the
clamped time lies beyond the end time. -/
def applyTimeWindow (task : ScheduledTask) (sch : WorkflowSchedule)
    (nextRun : Int) : ScheduledTask :=
  let nr := match sch.startTime with
    | some st => if nextRun < st then st else nextRun
    | none => nextRun
  match sch.endTime with
  | some et =>
    if nr > et then { task with enabled := false }
    else { task with nextRun := nr }
  | none => { task with nextRun := nr }

/-- `SimpleScheduler.calculateNextRun` (`simple_scheduler.go:235`). -/
def calculateNextRun (task : ScheduledTask) (now : Int) :
    Except String ScheduledTask :=
  match task.schedule with
  | none => .error "schedule is nil"
  | some sch => (switchNextRun sch now).map (applyTimeWindow task sch)

/-- The firing test of `SimpleScheduler.checkAndTriggerTasks`
(`simple_scheduler.go:190`): a task fires when it is enabled and its
next-run time has passed. -/
def shouldTrigger (task : ScheduledTask) (now : Int) : Bool :=
  task.enabled && decide (now > task.nextRun)

/-- A concrete simple enabled condition with expression `x > 1`. -/
def xGtOneCond : EdgeCondition :=
  { expression := "x > 1", condType := "simple", defaultValue := false,
    enabled := true }

/-- A concrete edge config wrapping `xGtOneCond`. -/
def xGtOneConfig : EdgeConfig :=
  { condition := some xGtOneCond, weight := 1, priority := 0, delay := 0,
    enabled := true }

/-- A concrete conditional edge whose simple condition is `x > 1`. -/
def xGtOneEdge : Edge :=
  { id := "e1", name := "", description := "", fromNodeId := "a",
    toNodeId := "b", edgeType := .conditional, status := .active,
    config := some xGtOneConfig }

/-- A concrete simple enabled condition with expression `x > 5`. -/
def xGtFiveCond : EdgeCondition :=
  { expression := "x > 5", condType := "simple", defaultValue := false,
    enabled := true }

/-- A concrete edge config wrapping `xGtFiveCond`. -/
def xGtFiveConfig : EdgeConfig :=
  { condition := some xGtFiveCond, weight := 1, priority := 0, delay := 0,
    enabled := true }

/-- A concrete conditional edge whose simple condition is `x > 5`. -/
def xGtFiveEdge : Edge :=
  { id := "e2", name := "", description := "", fromNodeId := "a",
    toNodeId := "b", edgeType := .conditional, status := .active,
    config := some xGtFiveConfig }

/-- A concrete plain node for graph examples. -/
def plainNode (idv : String) : Node :=
  { id := idv, name := idv, description := "", nodeType := "transform",
    plugin := "data_transform", status := "pending", retryCount := 0,
    dependencies := [], config := none }

/-- A concrete enabled normal edge between two nodes. -/
def plainEdge (idv src tgt : String) : Edge :=
  { id := idv, name := "", description := "", fromNodeId := src,
    toNodeId := tgt, edgeType := .normal, status := .active, config := none }

/-- An inactive workflow whose two enabled edges form the cycle
`a → b → a`. -/
def cyclicWorkflow : Workflow :=
  { id := "wf1", name := "cyclic", workflowType := "t", description := "",
    version := "1.0.0",
    nodes := some [("a", plainNode "a"), ("b", plainNode "b")],
    edges := some [plainEdge "e1" "a" "b", plainEdge "e2" "b" "a"],
    schedule := none, config := none, status := .inactive,
    statistics := none, tagsList := none, priority := 0, createdBy := "",
    updatedBy := "", createdAt := 0, updatedAt := 0 }

/-- A concrete 7-second execution timeout configuration. -/
def sevenSecondTimeoutCfg : TimeoutConfig :=
  { executionTimeout := 7000000000, connectionTimeout := 0,
    readTimeout := 0, writeTimeout := 0 }

/-- A concrete node config carrying `sevenSecondTimeoutCfg`. -/
def sevenSecondNodeCfg : NodeConfig :=
  { retryConfig := none, timeoutConfig := some sevenSecondTimeoutCfg }

/-- A concrete node with a configured 7-second execution timeout. -/
def timeoutNode : Node :=
  { id := "n2", name := "n2", description := "", nodeType := "transform",
    plugin := "data_transform", status := "pending", retryCount := 0,
    dependencies := [], config := some sevenSecondNodeCfg }

/-- A concrete failed execution with one retry already used. -/
def failedExec : Execution :=
  { id := "ex1", workflowId := "wf1", workflowVer := "1.0.0", name := "",
    description := "", status := .failed, triggerType := "manual",
    triggerBy := "u", scheduledAt := none, startedAt := some 10,
    completedAt := some 20, retryCount := 1, maxRetries := 3,
    retryStrategy := "exponential", errorMsg := "boom", errorCode := "E1",
    stackTrace := "trace", priority := 0, tags := none, createdAt := 0,
    updatedAt := 0 }

/-- A concrete running execution. -/
def runningExec : Execution :=
  { failedExec with
    id := "ex2", status := .running, completedAt := none,
    errorMsg := "", errorCode := "", stackTrace := "" }

/-- A concrete completed execution. -/
def completedExec : Execution :=
  { failedExec with
    id := "ex3", status := .completed, errorMsg := "",
    errorCode := "", stackTrace := "" }

/-- A concrete cancelled execution. -/
def cancelledExec : Execution :=
  { failedExec with id := "ex4", status := .cancelled }


/-- A concrete interval schedule firing every 5 time units, without a
time window. -/
def intervalSched : WorkflowSchedule :=
  { scheduleType := .interval, cronExpression := "", timezone := "UTC",
    interval := 5, executeAt := none, enabled := true, startTime := none,
    endTime := none, maxInstances := 1, missedRunPolicy := "skip" }

/-- A concrete scheduled task carrying `intervalSched`. -/
def intervalTask : ScheduledTask :=
  { id := "task_wf1", workflowId := "wf1", name := "cyclic",
    schedule := some intervalSched, nextRun := 0, lastRun := none,
    runCount := 0, enabled := true }

/-- Concrete statistics: 3 executions with average time 10. -/
def sampleStats : WorkflowStatistics :=
  { totalExecutions := 3, successfulRuns := 2, failedRuns := 1,
    successRate := 2 / 3, averageExecTime := 10, lastExecutionTime := none,
    nextExecutionTime := none }

/-- A concrete stored workflow with priority 7 and a non-empty
description. -/
def baseWorkflow : Workflow :=
  { id := "wf2", name := "base", workflowType := "t", description := "d",
    version := "1.0.0", nodes := none, edges := none, schedule := none,
    config := none, status := .inactive, statistics := none,
    tagsList := none, priority := 7, createdBy := "", updatedBy := "",
    createdAt := 0, updatedAt := 0 }

/-- A concrete update request whose every merge-relevant field holds its
zero value. -/
def zeroRequest : Workflow :=
  { id := "wf2", name := "", workflowType := "", description := "",
    version := "", nodes := none, edges := none, schedule := none,
    config := none, status := .inactive, statistics := none,
    tagsList := none, priority := 0, createdBy := "", updatedBy := "",
    createdAt := 0, updatedAt := 0 }


end FlowService

deriving instance DecidableEq for Except

namespace FlowService


/-- Under a conditional edge with an enabled simple condition, evaluating
the edge condition is evaluating the simple expression. -/
theorem evaluateCondition_simple_eq (e : Edge) (cfg : EdgeConfig)
    (cond : EdgeCondition) (ctx : List (String × GoVal))
    (h1 : e.edgeType = .conditional) (h2 : e.config = some cfg)
    (h3 : cfg.condition = some cond) (h4 : cond.enabled = true)
    (h5 : cond.condType = "simple") :
    e.evaluateCondition ctx = evaluateSimpleCondition cond.expression ctx := by
  simp [Edge.evaluateCondition, Edge.isConditional, h1, h2, h3, h4, h5]

/-- An expression with three whitespace-separated tokens is neither the
literal `true` nor the literal `false`. -/
theorem goFields_three_ne_literal {expr a b c : String}
    (h : goFields expr = [a, b, c]) : expr ≠ "true" ∧ expr ≠ "false" := by
  constructor <;> intro he
  · rw [he, show goFields "true" = ["true"] from by decide] at h
    simp at h
  · rw [he, show goFields "false" = ["false"] from by decide] at h
    simp at h

/-- C3 counterexample: evaluating the well-formed simple expression
`x > 1` when `x` resolves to the string `"abc"` (neither int nor float)
reports the error `cannot compare non-numeric value` rather than returning
false without error. -/
theorem evaluateCondition_nonNumeric_counterexample :
    xGtOneEdge.evaluateCondition [("x", GoVal.vstr "abc")] =
      .error "cannot compare non-numeric value" ∧
    xGtOneEdge.evaluateCondition [("x", GoVal.vstr "abc")] ≠ .ok false := by
  decide

/-- C3 (amended): for a conditional edge with an enabled simple condition
whose expression has the 3-token shape, an absent field yields false
without an error, while a present field of non-numeric dynamic type yields
the `cannot compare non-numeric value` error. -/
theorem evaluateCondition_unresolved_or_nonNumeric (e : Edge)
    (cfg : EdgeConfig) (cond : EdgeCondition) (ctx : List (String × GoVal))
    (field op valueStr : String)
    (h1 : e.edgeType = .conditional) (h2 : e.config = some cfg)
    (h3 : cfg.condition = some cond) (h4 : cond.enabled = true)
    (h5 : cond.condType = "simple")
    (hexpr : goFields cond.expression = [field, op, valueStr]) :
    (lookupCtx ctx field = none → e.evaluateCondition ctx = .ok false) ∧
    (∀ v, lookupCtx ctx field = some v → v.asContextNum = none →
      e.evaluateCondition ctx = .error "cannot compare non-numeric value") := by
  obtain ⟨hne1, hne2⟩ := goFields_three_ne_literal hexpr
  rw [evaluateCondition_simple_eq e cfg cond ctx h1 h2 h3 h4 h5]
  constructor
  · intro hl
    simp [evaluateSimpleCondition, hne1, hne2, hexpr, hl]
  · intro v hv hnum
    simp [evaluateSimpleCondition, hne1, hne2, hexpr, hv, hnum]

/-- C3 witness: on the concrete edge with condition `x > 1` and an empty
variables snapshot, evaluation returns false without an error. -/
theorem evaluateCondition_unresolved_witness :
    xGtOneEdge.evaluateCondition [] = .ok false := by
  have h := evaluateCondition_unresolved_or_nonNumeric xGtOneEdge
    xGtOneConfig xGtOneCond [] "x" ">" "1" rfl rfl rfl rfl rfl (by decide)
  exact h.1 (by decide)

/-- C4: for a conditional edge with an enabled simple condition: the
literal `true` evaluates to true and `false` to false; a 3-token
expression with a supported operator, an integer-parsing value, and a
field resolving to an int or truncated float evaluates to the integer
comparison; and a non-literal expression without exactly 3 tokens yields
the invalid-expression-format error. -/
theorem evaluateCondition_simple_spec (e : Edge) (cfg : EdgeConfig)
    (cond : EdgeCondition) (ctx : List (String × GoVal))
    (h1 : e.edgeType = .conditional) (h2 : e.config = some cfg)
    (h3 : cfg.condition = some cond) (h4 : cond.enabled = true)
    (h5 : cond.condType = "simple") :
    (cond.expression = "true" → e.evaluateCondition ctx = .ok true) ∧
    (cond.expression = "false" → e.evaluateCondition ctx = .ok false) ∧
    (∀ field op valueStr v i n r,
      goFields cond.expression = [field, op, valueStr] →
      lookupCtx ctx field = some v → v.asContextNum = some i →
      sscanfInt valueStr = some n → specCompare op i n = some r →
      e.evaluateCondition ctx = .ok r) ∧
    (cond.expression ≠ "true" → cond.expression ≠ "false" →
      (goFields cond.expression).length ≠ 3 →
      e.evaluateCondition ctx =
        .error ("invalid expression format: " ++ cond.expression)) := by
  rw [evaluateCondition_simple_eq e cfg cond ctx h1 h2 h3 h4 h5]
  refine ⟨?_, ?_, ?_, ?_⟩
  · intro he
    simp [evaluateSimpleCondition, he]
  · intro he
    simp [evaluateSimpleCondition, he]
  · intro field op valueStr v i n r hfields hlook hnum hparse hcmp
    obtain ⟨hne1, hne2⟩ := goFields_three_ne_literal hfields
    by_cases hop1 : op = ">"
    · subst hop1
      simp [specCompare] at hcmp
      simp [evaluateSimpleCondition, hne1, hne2, hfields, hlook, hnum,
        hparse, hcmp]
    · by_cases hop2 : op = ">="
      · subst hop2
        simp [specCompare] at hcmp
        simp [evaluateSimpleCondition, hne1, hne2, hfields, hlook, hnum,
          hparse, hcmp]
      · by_cases hop3 : op = "<"
        · subst hop3
          simp [specCompare] at hcmp
          simp [evaluateSimpleCondition, hne1, hne2, hfields, hlook, hnum,
            hparse, hcmp]
        · by_cases hop4 : op = "<="
          · subst hop4
            simp [specCompare] at hcmp
            simp [evaluateSimpleCondition, hne1, hne2, hfields, hlook,
              hnum, hparse, hcmp]
          · by_cases hop5 : op = "=="
            · subst hop5
              simp [specCompare] at hcmp
              simp [evaluateSimpleCondition, hne1, hne2, hfields, hlook,
                hnum, hparse, hcmp]
            · by_cases hop6 : op = "="
              · subst hop6
                simp [specCompare] at hcmp
                simp [evaluateSimpleCondition, hne1, hne2, hfields,
                  hlook, hnum, hparse, hcmp]
              · by_cases hop7 : op = "!="
                · subst hop7
                  simp [specCompare] at hcmp
                  simp [evaluateSimpleCondition, hne1, hne2, hfields,
                    hlook, hnum, hparse, hcmp]
                · simp [specCompare, hop1, hop2, hop3, hop4, hop5, hop6,
                    hop7] at hcmp
  · intro hne1 hne2 hlen
    rcases hl : goFields cond.expression with _ | ⟨a, _ | ⟨b, _ | ⟨c, _ | ⟨d, rest⟩⟩⟩⟩ <;>
      simp [evaluateSimpleCondition, hne1, hne2, hl]
    exact absurd (by rw [hl]; rfl) hlen

/-- C4 witness: the concrete edge with condition `x > 5`, evaluated with
`x` bound to the int 7, yields true. -/
theorem evaluateCondition_simple_spec_witness :
    xGtFiveEdge.evaluateCondition [("x", GoVal.vint 7)] = .ok true := by
  have h := evaluateCondition_simple_spec xGtFiveEdge xGtFiveConfig
    xGtFiveCond [("x", GoVal.vint 7)] rfl rfl rfl rfl rfl
  exact h.2.2.1 "x" ">" "5" (GoVal.vint 7) 7 5 true (by decide) (by decide)
    (by decide) (by decide) (by decide)

/-- C2 counterexample: a workflow whose enabled-edge subgraph is a cycle
activates successfully, so activation performs no graph validation. -/
theorem activateWorkflow_cycle_counterexample :
    activateWorkflow cyclicWorkflow 1 =
      .ok { cyclicWorkflow with status := .active, updatedAt := 1 } ∧
    existsEnabledCycle cyclicWorkflow = true := by
  constructor
  · rfl
  · decide

/-- C2 (amended): `ActivateWorkflow` succeeds exactly when the status
transition to active is allowed, that is when the workflow is inactive or
paused; it inspects nothing else — in particular no graph property — and
on success only sets the status to active and refreshes the update
time. -/
theorem activateWorkflow_spec (w : Workflow) (now : Int) :
    activateWorkflow w now =
      if w.status = .inactive ∨ w.status = .paused then
        .ok { w with status := .active, updatedAt := now }
      else .error .invalidTransition := by
  cases h : w.status <;>
    simp [activateWorkflow, validateWorkflowTransition, workflowTransitions, h]

/-- C6 counterexample: for a node with no configuration the engine applies
a 5-minute timeout, while the specification's formula
`min(node timeout, workflow task timeout, 30s)` can never exceed 30
seconds — under either reading of an absent node timeout (zero, or the
resolved 5 minutes) with a 60-second workflow task timeout. -/
theorem engineNodeTimeout_counterexample :
    engineNodeTimeout noConfigNode = fiveMinutesNs ∧
    specMinTimeout 0 (60 * 1000000000) ≠ fiveMinutesNs ∧
    specMinTimeout fiveMinutesNs (60 * 1000000000) ≠ fiveMinutesNs := by
  decide

/-- C6 (amended): the timeout the engine applies around a node's plugin
call equals `Node.GetExecutionTimeout`: the node's configured execution
timeout when positive, and 5 minutes otherwise; the workflow config's task
timeout is never consulted, and the engine's 30-second fallback is dead
because `GetExecutionTimeout` is always positive. -/
theorem engineNodeTimeout_spec (n : Node) :
    engineNodeTimeout n = n.getExecutionTimeout ∧
    0 < n.getExecutionTimeout ∧
    (∀ cfg tc, n.config = some cfg → cfg.timeoutConfig = some tc →
      0 < tc.executionTimeout → engineNodeTimeout n = tc.executionTimeout) ∧
    (n.config = none → engineNodeTimeout n = fiveMinutesNs) ∧
    (∀ cfg, n.config = some cfg → cfg.timeoutConfig = none →
      engineNodeTimeout n = fiveMinutesNs) ∧
    (∀ cfg tc, n.config = some cfg → cfg.timeoutConfig = some tc →
      tc.executionTimeout ≤ 0 → engineNodeTimeout n = fiveMinutesNs) := by
  have hpos : 0 < n.getExecutionTimeout := by
    rcases hc : n.config with _ | cfg
    · norm_num [Node.getExecutionTimeout, hc, fiveMinutesNs]
    · rcases ht : cfg.timeoutConfig with _ | tc
      · norm_num [Node.getExecutionTimeout, hc, ht, fiveMinutesNs]
      · rcases lt_or_le 0 tc.executionTimeout with h | h
        · simp [Node.getExecutionTimeout, hc, ht, h]
        · norm_num [Node.getExecutionTimeout, hc, ht, not_lt.mpr h, fiveMinutesNs]
  have heq : engineNodeTimeout n = n.getExecutionTimeout := by
    unfold engineNodeTimeout
    simp [show n.getExecutionTimeout ≠ 0 by omega]
  refine ⟨heq, hpos, ?_, ?_, ?_, ?_⟩
  · intro cfg tc h1 h2 h3
    simp [heq, Node.getExecutionTimeout, h1, h2, h3]
  · intro h1
    simp [heq, Node.getExecutionTimeout, h1]
  · intro cfg h1 h2
    simp [heq, Node.getExecutionTimeout, h1, h2]
  · intro cfg tc h1 h2 h3
    simp [heq, Node.getExecutionTimeout, h1, h2, show ¬ tc.executionTimeout > 0 by omega]

/-- C6 witness: the engine applies exactly the configured 7-second timeout
of the concrete node. -/
theorem engineNodeTimeout_spec_witness :
    engineNodeTimeout timeoutNode = 7000000000 :=
  (engineNodeTimeout_spec timeoutNode).2.2.1 sevenSecondNodeCfg
    sevenSecondTimeoutCfg rfl rfl (by decide)

/-- C1: a workflow transition validates exactly when it is in the spec's
workflow table; an execution transition validates exactly when it is in the
spec's execution table; and validating from an execution status outside the
table's keys (`timeout`, `archived`) yields an invalid-transition error. -/
theorem validateTransition_spec :
    ∀ f t, (validateWorkflowTransition f t = .ok () ↔ (f, t) ∈ specWorkflowTable) ∧
      ∀ f2 t2, (validateExecutionTransition f2 t2 = .ok () ↔ (f2, t2) ∈ specExecutionTable) ∧
        ((f2 = .timeout ∨ f2 = .archived) →
          validateExecutionTransition f2 t2 = .error .invalidFromStatus) := by
  decide

/-- C7: retrying an execution succeeds exactly when its status is failed
and its retry count is below the maximum; on success the status becomes
pending, the retry count is incremented by one, the start/completion times
and error fields are cleared, and every other field is unchanged. -/
theorem execution_retry_spec (e : Execution) :
    (e.status = .failed ∧ e.retryCount < e.maxRetries →
      e.retry = .ok { e with
        retryCount := e.retryCount + 1, status := .pending,
        startedAt := none, completedAt := none, errorMsg := "",
        errorCode := "", stackTrace := "" }) ∧
    (¬ (e.status = .failed ∧ e.retryCount < e.maxRetries) →
      e.retry = .error "execution cannot be retried") := by
  constructor
  · rintro ⟨h1, h2⟩
    simp [Execution.retry, Execution.canRetry, h1, h2]
  · intro h
    have hc : e.canRetry = false := by
      rcases not_and_or.mp h with h1 | h1 <;>
        simp [Execution.canRetry, h1]
    simp [Execution.retry, hc]

/-- C7 witness: retrying the concrete failed execution yields the pending
record with retry count 2 and cleared timing and error fields. -/
theorem execution_retry_spec_witness :
    failedExec.retry = .ok { failedExec with
      retryCount := 2, status := .pending, startedAt := none,
      completedAt := none, errorMsg := "", errorCode := "",
      stackTrace := "" } := by
  have h := (execution_retry_spec failedExec).1 ⟨rfl, by decide⟩
  rw [h]
  decide

/-- C5 counterexample: cancelling an already-completed execution returns
an invalid-transition error rather than success, and so does cancelling an
already-cancelled execution, so repeated cancellation is not idempotent at
the service level. -/
theorem cancelExecution_terminal_counterexample :
    cancelExecutionService (some completedExec) 5 =
      .error (.stateErr .invalidTransition) ∧
    cancelExecutionService (some cancelledExec) 5 =
      .error (.stateErr .invalidTransition) := by
  decide

/-- C5 (amended): cancelling an unknown execution id returns the not-found
error; cancelling a live execution (pending or running) succeeds, setting
the status to cancelled and stamping the completion time; cancelling an
execution in any terminal status (completed, failed, cancelled, timeout)
or archived returns a state-transition error rather than success. -/
theorem cancelExecution_spec (ex : Execution) (now : Int) :
    (cancelExecutionService none now = .error .notFound) ∧
    (ex.status = .pending ∨ ex.status = .running →
      cancelExecutionService (some ex) now =
        .ok { ex with status := .cancelled, completedAt := some now }) ∧
    (ex.status.isFinished = true ∨ ex.status = .archived →
      ∃ te, cancelExecutionService (some ex) now = .error (.stateErr te)) := by
  refine ⟨rfl, ?_, ?_⟩
  · intro h
    rcases h with h | h <;>
      simp [cancelExecutionService, validateExecutionTransition,
        executionTransitions, h, Execution.cancel, Execution.isFinished,
        ExecStatus.isFinished]
  · intro h
    cases hst : ex.status
    case pending => rw [hst] at h; simp [ExecStatus.isFinished] at h
    case running => rw [hst] at h; simp [ExecStatus.isFinished] at h
    case completed =>
      exact ⟨.invalidTransition, by
        simp [cancelExecutionService, validateExecutionTransition,
          executionTransitions, hst]⟩
    case failed =>
      exact ⟨.invalidTransition, by
        simp [cancelExecutionService, validateExecutionTransition,
          executionTransitions, hst]⟩
    case cancelled =>
      exact ⟨.invalidTransition, by
        simp [cancelExecutionService, validateExecutionTransition,
          executionTransitions, hst]⟩
    case timeout =>
      exact ⟨.invalidFromStatus, by
        simp [cancelExecutionService, validateExecutionTransition,
          executionTransitions, hst]⟩
    case archived =>
      exact ⟨.invalidFromStatus, by
        simp [cancelExecutionService, validateExecutionTransition,
          executionTransitions, hst]⟩

/-- C5 witness: cancelling the concrete running execution succeeds and
marks it cancelled with the completion time stamped. -/
theorem cancelExecution_spec_witness :
    cancelExecutionService (some runningExec) 7 =
      .ok { runningExec with status := .cancelled, completedAt := some 7 } :=
  (cancelExecution_spec runningExec 7).2.1 (Or.inr rfl)


/-- C8: the next-run computation yields `now + interval` for interval
schedules and rejects non-positive intervals, yields `executeAt` for once
schedules and the zero time for manual schedules; afterwards a next-run
below the start time is clamped up to the start time, a next-run within
the window is stored, and a next-run beyond the end time disables the task
so that it never fires. -/
theorem calculateNextRun_spec (task : ScheduledTask) (sch : WorkflowSchedule)
    (now : Int) (hs : task.schedule = some sch) :
    (sch.scheduleType = .interval → sch.interval ≤ 0 →
      calculateNextRun task now = .error "interval must be positive") ∧
    (sch.scheduleType = .interval → 0 < sch.interval →
      calculateNextRun task now =
        .ok (applyTimeWindow task sch (now + sch.interval))) ∧
    (∀ t, sch.scheduleType = .once → sch.executeAt = some t →
      calculateNextRun task now = .ok (applyTimeWindow task sch t)) ∧
    (sch.scheduleType = .manual →
      calculateNextRun task now = .ok (applyTimeWindow task sch 0)) ∧
    (∀ nr st, sch.startTime = some st → nr < st →
      applyTimeWindow task sch nr = applyTimeWindow task sch st) ∧
    (∀ nr, (sch.startTime = none ∨ ∃ st, sch.startTime = some st ∧ st ≤ nr) →
      (sch.endTime = none ∨ ∃ et, sch.endTime = some et ∧ nr ≤ et) →
      applyTimeWindow task sch nr = { task with nextRun := nr }) ∧
    (∀ nr et, (sch.startTime = none ∨ ∃ st, sch.startTime = some st ∧ st ≤ nr) →
      sch.endTime = some et → et < nr →
      applyTimeWindow task sch nr = { task with enabled := false } ∧
      ∀ now2, shouldTrigger { task with enabled := false } now2 = false) := by
  refine ⟨?_, ?_, ?_, ?_, ?_, ?_, ?_⟩
  · intro h1 h2
    simp [calculateNextRun, hs, switchNextRun, h1, h2, Except.map]
  · intro h1 h2
    simp [calculateNextRun, hs, switchNextRun, h1,
      show ¬ sch.interval ≤ 0 by omega, Except.map]
  · intro t h1 h2
    simp [calculateNextRun, hs, switchNextRun, h1, h2, Except.map]
  · intro h1
    simp [calculateNextRun, hs, switchNextRun, h1, Except.map]
  · intro nr st hst hlt
    simp [applyTimeWindow, hst, hlt, lt_irrefl]
  · intro nr h1 h2
    rcases h1 with h1 | ⟨st, hst, hle⟩
    · rcases h2 with h2 | ⟨et, het, hle2⟩
      · simp [applyTimeWindow, h1, h2]
      · simp [applyTimeWindow, h1, het, not_lt.mpr hle2]
    · rcases h2 with h2 | ⟨et, het, hle2⟩
      · simp [applyTimeWindow, hst, not_lt.mpr hle, h2]
      · simp [applyTimeWindow, hst, not_lt.mpr hle, het, not_lt.mpr hle2]
  · intro nr et h1 h2 h3
    constructor
    · rcases h1 with h1 | ⟨st, hst, hle⟩
      · simp [applyTimeWindow, h1, h2, h3]
      · simp [applyTimeWindow, hst, not_lt.mpr hle, h2, h3]
    · intro now2
      simp [shouldTrigger]

/-- C8 witness: the concrete interval task scheduled at time 1000 gets
next-run 1005. -/
theorem calculateNextRun_spec_witness :
    calculateNextRun intervalTask 1000 =
      .ok { intervalTask with nextRun := 1005 } := by
  have h := (calculateNextRun_spec intervalTask intervalSched 1000 rfl).2.1
    rfl (by decide)
  rw [h]
  decide

/-- C9: a statistics update increments the execution count, and the new
average execution time equals `(avgOld * (n - 1) + d) / n` exactly, over
the truncating int64 division, where `n` is the count after the update;
in particular the first observation sets the average to `d`. -/
theorem updateStatistics_movingAverage (st : WorkflowStatistics)
    (execTime : Int) (success : Bool) (now : Int)
    (h : 0 ≤ st.totalExecutions) :
    (updateStatisticsCore (some st) execTime success now).totalExecutions =
      st.totalExecutions + 1 ∧
    (updateStatisticsCore (some st) execTime success now).averageExecTime =
      Int.tdiv (st.averageExecTime * st.totalExecutions + execTime)
        (st.totalExecutions + 1) ∧
    (st.totalExecutions = 0 →
      (updateStatisticsCore (some st) execTime success now).averageExecTime =
        execTime) := by
  have hpos : st.totalExecutions + 1 > 0 := by omega
  by_cases h0 : st.totalExecutions = 0
  · refine ⟨?_, ?_, fun _ => ?_⟩ <;>
      simp [updateStatisticsCore, h0, hpos]
  · have h1 : ¬ st.totalExecutions + 1 = 1 := by omega
    refine ⟨?_, ?_, fun hz => absurd hz h0⟩ <;>
      simp [updateStatisticsCore, hpos, h1, Int.add_sub_cancel]

/-- C9 witness: updating the concrete statistics (3 runs, average 10)
with a completed 7-unit observation gives 4 runs and average
`(10 * 3 + 7) / 4 = 9`. -/
theorem updateStatistics_movingAverage_witness :
    (updateStatisticsCore (some sampleStats) 7 true 99).totalExecutions = 4 ∧
    (updateStatisticsCore (some sampleStats) 7 true 99).averageExecTime = 9 := by
  have h := updateStatistics_movingAverage sampleStats 7 true 99 (by decide)
  constructor
  · rw [h.1]; decide
  · rw [h.2.1]; decide

/-- C10: every zero-valued field of an update request (empty name,
description or version; absent nodes, edges, schedule, config or tags;
priority 0) leaves the stored field unchanged; consequently the priority
of the updated workflow can be 0 only if the stored one already was, and
the description can be empty only if the stored one already was. -/
theorem updateWorkflow_frame (existing request : Workflow) (now : Int)
    (w2 : Workflow)
    (h : updateWorkflowService existing request now = .ok w2) :
    (request.name = "" → w2.name = existing.name) ∧
    (request.description = "" → w2.description = existing.description) ∧
    (request.version = "" → w2.version = existing.version) ∧
    (request.nodes = none → w2.nodes = existing.nodes) ∧
    (request.edges = none → w2.edges = existing.edges) ∧
    (request.schedule = none → w2.schedule = existing.schedule) ∧
    (request.config = none → w2.config = existing.config) ∧
    (request.tagsList = none → w2.tagsList = existing.tagsList) ∧
    (request.priority = 0 → w2.priority = existing.priority) ∧
    (w2.priority = 0 → existing.priority = 0) ∧
    (w2.description = "" → existing.description = "") := by
  simp only [updateWorkflowService] at h
  rcases hv : (mergeUpdate existing request).validateForUpdate with e | u <;>
    rw [hv] at h
  · simp at h
  · rw [Except.ok.injEq] at h
    subst h
    refine ⟨?_, ?_, ?_, ?_, ?_, ?_, ?_, ?_, ?_, ?_, ?_⟩
    · intro hz; simp [mergeUpdate, hz]
    · intro hz; simp [mergeUpdate, hz]
    · intro hz; simp [mergeUpdate, hz]
    · intro hz; simp [mergeUpdate, hz]
    · intro hz; simp [mergeUpdate, hz]
    · intro hz; simp [mergeUpdate, hz]
    · intro hz; simp [mergeUpdate, hz]
    · intro hz; simp [mergeUpdate, hz]
    · intro hz; simp [mergeUpdate, hz]
    · intro hp
      by_cases hr : request.priority = 0
      · simpa [mergeUpdate, hr] using hp
      · simp [mergeUpdate, hr] at hp
    · intro hd
      by_cases hr : request.description = ""
      · simpa [mergeUpdate, hr] using hd
      · simp [mergeUpdate, hr] at hd

/-- C10 witness: updating the concrete stored workflow with an all-zero
request leaves its description and priority unchanged. -/
theorem updateWorkflow_frame_witness :
    ({ baseWorkflow with updatedAt := 50 } : Workflow).description =
      baseWorkflow.description ∧
    ({ baseWorkflow with updatedAt := 50 } : Workflow).priority =
      baseWorkflow.priority := by
  have h := updateWorkflow_frame baseWorkflow zeroRequest 50
    { baseWorkflow with updatedAt := 50 } (by decide)
  exact ⟨h.2.1 rfl, h.2.2.2.2.2.2.2.2.1 rfl⟩

end FlowService
